import Mathlib

/-!
Verification of the impact-physics and mitigation engine of the
asteroid-impact digital twin (file `simulation.py`).

The Python floats are modelled as real numbers; `math.sqrt`, `math.sin`,
`x ** p` become `Real.sqrt`, `Real.sin`, `Real.rpow`.  The result
dictionaries become structures with the same field names; the optional
`lat`/`lon` arguments become `Option ℝ`.
-/

open Real

/-- Damage-zone triple, the shape of both `damage_radii_m`
(radii in meters) and `affected_areas_km2` (areas in km²). -/
structure DamageRadii where
  lethal_m : ℝ
  severe_m : ℝ
  moderate_m : ℝ

/-- The `input` sub-dictionary stored inside every simulation result. -/
structure ImpactInput where
  diameter_m : ℝ
  velocity_m_s : ℝ
  density_kg_m3 : ℝ
  impact_angle_deg : ℝ
  lat : Option ℝ
  lon : Option ℝ

/-- The result dictionary produced by `simulate_impact`. -/
structure ImpactResult where
  input : ImpactInput
  mass_kg : ℝ
  energy_joules : ℝ
  energy_megatons : ℝ
  crater_diameter_m : ℝ
  damage_radii_m : DamageRadii
  affected_areas_km2 : DamageRadii

/-- Constant `JOULES_PER_MEGATON_TNT = 4.184e15` from `simulation.py`. -/
def JOULES_PER_MEGATON_TNT : ℝ := 4.184e15

/-- `math.radians`: degrees to radians. -/
noncomputable def radians (x : ℝ) : ℝ := x * Real.pi / 180

/-- `mass_from_diameter`: mass of a sphere (asteroid) in kg. -/
noncomputable def mass_from_diameter (diameter_m density_kg_m3 : ℝ) : ℝ :=
  let r := diameter_m / 2.0
  let volume := (4.0 / 3.0) * Real.pi * r ^ (3 : ℕ)
  density_kg_m3 * volume

/-- `kinetic_energy_joules`: kinetic energy in joules. -/
def kinetic_energy_joules (mass_kg velocity_m_s : ℝ) : ℝ :=
  0.5 * mass_kg * velocity_m_s ^ (2 : ℕ)

/-- `energy_megatons`: joules to megatons TNT. -/
noncomputable def energy_megatons (energy_joules : ℝ) : ℝ :=
  energy_joules / JOULES_PER_MEGATON_TNT

/-- `estimate_crater_diameter`: empirical approximation for crater
diameter in meters, `max(1.0, C * E**0.25 * angle_factor * ratio**(1/9))`. -/
noncomputable def estimate_crater_diameter
    (energy_joules density_impactor density_target impact_angle_deg : ℝ) : ℝ :=
  let E := energy_joules
  let angle_factor := Real.sin (radians impact_angle_deg) ^ ((1 : ℝ) / 3)
  let C : ℝ := 0.035
  let crater_diameter_m :=
    C * E ^ (0.25 : ℝ) * angle_factor *
      (density_impactor / density_target) ^ ((1 : ℝ) / 9)
  max 1.0 crater_diameter_m

/-- `estimate_damage_radii`: radii in meters for the three severity
zones; zero-or-negative megaton energy short-circuits to all zeros,
otherwise cube-root power laws floored at 5 / 10 / 20 m. -/
noncomputable def estimate_damage_radii (energy_joules : ℝ) : DamageRadii :=
  let E_mt := energy_megatons energy_joules
  if E_mt ≤ 0 then ⟨0.0, 0.0, 0.0⟩
  else
    let lethal_m := 1000.0 * E_mt ^ ((1 : ℝ) / 3)
    let severe_m := 2000.0 * E_mt ^ ((1 : ℝ) / 3) * 0.6
    let moderate_m := 3000.0 * E_mt ^ ((1 : ℝ) / 3) * 1.2
    ⟨max 5.0 lethal_m, max 10.0 severe_m, max 20.0 moderate_m⟩

/-- `area_from_radius_m`: area in km² for a radius in meters. -/
noncomputable def area_from_radius_m (radius_m : ℝ) : ℝ :=
  let area_m2 := Real.pi * radius_m ^ (2 : ℕ)
  area_m2 / 1e6

/-- `simulate_impact`: the main simulation function.  The Python
defaults (`density 3000`, `angle 45`, `lat/lon None`) are supplied by
callers here; the target density passed to the crater estimate is the
default `2500`. -/
noncomputable def simulate_impact (diameter_m velocity_m_s density_kg_m3
    impact_angle_deg : ℝ) (lat lon : Option ℝ) : ImpactResult :=
  let m := mass_from_diameter diameter_m density_kg_m3
  let E := kinetic_energy_joules m velocity_m_s
  let E_mt := energy_megatons E
  let crater_d := estimate_crater_diameter E density_kg_m3 2500.0 impact_angle_deg
  let damage_radii := estimate_damage_radii E
  let areas_km2 : DamageRadii :=
    ⟨area_from_radius_m damage_radii.lethal_m,
     area_from_radius_m damage_radii.severe_m,
     area_from_radius_m damage_radii.moderate_m⟩
  ⟨⟨diameter_m, velocity_m_s, density_kg_m3, impact_angle_deg, lat, lon⟩,
   m, E, E_mt, crater_d, damage_radii, areas_km2⟩

/-- `apply_kinetic_impactor`: reduce velocity by a percentage and
re-simulate from the stored input. -/
noncomputable def apply_kinetic_impactor (sim_result : ImpactResult)
    (velocity_reduction_pct : ℝ) : ImpactResult :=
  let inp := sim_result.input
  let new_velocity := inp.velocity_m_s * (1.0 - velocity_reduction_pct / 100.0)
  simulate_impact inp.diameter_m new_velocity inp.density_kg_m3
    inp.impact_angle_deg inp.lat inp.lon

/-- `apply_nuclear_deflection`: reduce energy by a percent by scaling
velocity by `sqrt(max(0, 1 - reduction))`. -/
noncomputable def apply_nuclear_deflection (sim_result : ImpactResult)
    (energy_reduction_pct : ℝ) : ImpactResult :=
  let inp := sim_result.input
  let reduction := energy_reduction_pct / 100.0
  let factor := Real.sqrt (max 0.0 (1.0 - reduction))
  let new_velocity := inp.velocity_m_s * factor
  simulate_impact inp.diameter_m new_velocity inp.density_kg_m3
    inp.impact_angle_deg inp.lat inp.lon

/-- `apply_fragmentation`: split into `fragment_count` fragments,
velocity scaled by `1/sqrt(fragment_count)`, diameter by
`1/fragment_count**(1/3)`. -/
noncomputable def apply_fragmentation (sim_result : ImpactResult)
    (fragment_count : ℕ) : ImpactResult :=
  let inp := sim_result.input
  let factor := 1.0 / Real.sqrt (fragment_count : ℝ)
  let new_velocity := inp.velocity_m_s * factor
  let new_diameter := inp.diameter_m / (fragment_count : ℝ) ^ ((1 : ℝ) / 3)
  simulate_impact new_diameter new_velocity inp.density_kg_m3
    inp.impact_angle_deg inp.lat inp.lon

/-- Modelled from the spec: the crater-diameter power law
`D = max(1, C · E^0.25 · sin(angle)^(1/3) · (density_impactor/density_target)^(1/9))`
with a scalar constant `C` and a fixed target density, as §4.1 step 3
states it. -/
noncomputable def crater_spec (C density_target energy_joules
    density_impactor impact_angle_deg : ℝ) : ℝ :=
  max 1.0 (C * energy_joules ^ (0.25 : ℝ) *
    Real.sin (radians impact_angle_deg) ^ ((1 : ℝ) / 3) *
    (density_impactor / density_target) ^ ((1 : ℝ) / 9))

/-! ## Helper lemmas -/

/-- The damage radii of a simulation result are the radii estimated
from its kinetic energy. -/
theorem simulate_impact_damage_radii (d v ρ a : ℝ) (lat lon : Option ℝ) :
    (simulate_impact d v ρ a lat lon).damage_radii_m =
      estimate_damage_radii
        (kinetic_energy_joules (mass_from_diameter d ρ) v) := rfl

/-- Ordering of the three damage radii for every energy. -/
theorem estimate_damage_radii_ordered (E : ℝ) :
    (estimate_damage_radii E).lethal_m ≤ (estimate_damage_radii E).severe_m ∧
    (estimate_damage_radii E).severe_m ≤ (estimate_damage_radii E).moderate_m := by
  simp only [estimate_damage_radii]
  split_ifs with h
  · simp
  · push_neg at h
    have hx : 0 ≤ energy_megatons E ^ ((1 : ℝ) / 3) :=
      Real.rpow_nonneg (le_of_lt h) _
    constructor
    · exact max_le_max (by norm_num) (by nlinarith)
    · exact max_le_max (by norm_num) (by nlinarith)

/-! ## Claims -/

/-- C1: for every input the damage radii returned by
`estimate_damage_radii`, and hence the ones stored in every result of
`simulate_impact`, satisfy `lethal_m ≤ severe_m ≤ moderate_m`, in the
zero-or-negative-energy branch (all zeros) as well as in the floored
small-energy regime. -/
theorem damage_radii_ordering (E d v ρ a : ℝ) (lat lon : Option ℝ) :
    ((estimate_damage_radii E).lethal_m ≤ (estimate_damage_radii E).severe_m ∧
     (estimate_damage_radii E).severe_m ≤ (estimate_damage_radii E).moderate_m) ∧
    ((simulate_impact d v ρ a lat lon).damage_radii_m.lethal_m ≤
       (simulate_impact d v ρ a lat lon).damage_radii_m.severe_m ∧
     (simulate_impact d v ρ a lat lon).damage_radii_m.severe_m ≤
       (simulate_impact d v ρ a lat lon).damage_radii_m.moderate_m) :=
  ⟨estimate_damage_radii_ordered E,
   (simulate_impact_damage_radii d v ρ a lat lon) ▸
     estimate_damage_radii_ordered _⟩

/-- C10: `lat` and `lon` never feed any numeric computation of
`simulate_impact`: two calls differing only in `lat`/`lon` (absent or
present) agree on mass, energies, crater diameter, all damage radii and
all affected areas, while `lat`/`lon` are copied verbatim into the
result's input. -/
theorem simulate_impact_location_independent (d v ρ a : ℝ)
    (lat1 lon1 lat2 lon2 : Option ℝ) :
    (simulate_impact d v ρ a lat1 lon1).mass_kg =
      (simulate_impact d v ρ a lat2 lon2).mass_kg ∧
    (simulate_impact d v ρ a lat1 lon1).energy_joules =
      (simulate_impact d v ρ a lat2 lon2).energy_joules ∧
    (simulate_impact d v ρ a lat1 lon1).energy_megatons =
      (simulate_impact d v ρ a lat2 lon2).energy_megatons ∧
    (simulate_impact d v ρ a lat1 lon1).crater_diameter_m =
      (simulate_impact d v ρ a lat2 lon2).crater_diameter_m ∧
    (simulate_impact d v ρ a lat1 lon1).damage_radii_m =
      (simulate_impact d v ρ a lat2 lon2).damage_radii_m ∧
    (simulate_impact d v ρ a lat1 lon1).affected_areas_km2 =
      (simulate_impact d v ρ a lat2 lon2).affected_areas_km2 ∧
    (simulate_impact d v ρ a lat1 lon1).input.lat = lat1 ∧
    (simulate_impact d v ρ a lat1 lon1).input.lon = lon1 :=
  ⟨rfl, rfl, rfl, rfl, rfl, rfl, rfl, rfl⟩

/-- C4: `estimate_damage_radii` returns exactly all-zero radii whenever
the megaton-converted energy is `≤ 0`, and for positive energy it
returns radii floored at 5 / 10 / 20 m. -/
theorem estimate_damage_radii_zero_branch_and_floors (E : ℝ) :
    (energy_megatons E ≤ 0 →
      estimate_damage_radii E = ⟨0.0, 0.0, 0.0⟩) ∧
    (0 < E →
      5.0 ≤ (estimate_damage_radii E).lethal_m ∧
      10.0 ≤ (estimate_damage_radii E).severe_m ∧
      20.0 ≤ (estimate_damage_radii E).moderate_m) := by
  constructor
  · intro h
    simp only [estimate_damage_radii]
    rw [if_pos h]
  · intro hE
    have hmt : ¬ energy_megatons E ≤ 0 := by
      rw [not_le]
      unfold energy_megatons JOULES_PER_MEGATON_TNT
      positivity
    simp only [estimate_damage_radii]
    rw [if_neg hmt]
    exact ⟨le_max_left _ _, le_max_left _ _, le_max_left _ _⟩

/-- Witness for C4: at energy `-1` the radii are exactly zero, and at
energy `1` joule the lethal radius meets the 5 m floor. -/
theorem estimate_damage_radii_zero_branch_and_floors_witness :
    estimate_damage_radii (-1) = ⟨0.0, 0.0, 0.0⟩ ∧
    5.0 ≤ (estimate_damage_radii 1).lethal_m :=
  ⟨(estimate_damage_radii_zero_branch_and_floors (-1)).1
      (by unfold energy_megatons JOULES_PER_MEGATON_TNT; norm_num),
   ((estimate_damage_radii_zero_branch_and_floors 1).2 (by norm_num)).1⟩

/-- C5: for `reduction_pct` in (0,100), `apply_nuclear_deflection`
scales the stored velocity by `sqrt(1 - pct/100)`, so the resulting
energy (joules and megatons) is the prior energy times `1 - pct/100`. -/
theorem apply_nuclear_deflection_energy (d v ρ a r : ℝ) (lat lon : Option ℝ)
    (h0 : 0 < r) (h1 : r < 100) :
    (apply_nuclear_deflection (simulate_impact d v ρ a lat lon) r).input.velocity_m_s
      = v * Real.sqrt (1 - r / 100) ∧
    (apply_nuclear_deflection (simulate_impact d v ρ a lat lon) r).energy_joules
      = (simulate_impact d v ρ a lat lon).energy_joules * (1 - r / 100) ∧
    (apply_nuclear_deflection (simulate_impact d v ρ a lat lon) r).energy_megatons
      = (simulate_impact d v ρ a lat lon).energy_megatons * (1 - r / 100) := by
  have hs : (0:ℝ) ≤ 1 - r / 100 := by linarith
  have hmax : max (0.0:ℝ) (1.0 - r / 100.0) = 1 - r / 100 := by
    rw [max_eq_right (show (0.0:ℝ) ≤ 1.0 - r / 100.0 by norm_num; linarith)]
    norm_num
  have h2 : (apply_nuclear_deflection (simulate_impact d v ρ a lat lon) r).energy_joules
      = (simulate_impact d v ρ a lat lon).energy_joules * (1 - r / 100) := by
    show kinetic_energy_joules (mass_from_diameter d ρ)
          (v * Real.sqrt (max 0.0 (1.0 - r / 100.0)))
        = kinetic_energy_joules (mass_from_diameter d ρ) v * (1 - r / 100)
    rw [hmax]
    unfold kinetic_energy_joules
    rw [mul_pow, Real.sq_sqrt hs]
    ring
  refine ⟨?_, h2, ?_⟩
  · show v * Real.sqrt (max 0.0 (1.0 - r / 100.0)) = v * Real.sqrt (1 - r / 100)
    rw [hmax]
  · show energy_megatons
        ((apply_nuclear_deflection (simulate_impact d v ρ a lat lon) r).energy_joules)
      = energy_megatons ((simulate_impact d v ρ a lat lon).energy_joules) * (1 - r / 100)
    rw [h2]
    unfold energy_megatons
    ring

/-- Witness for C5: with `reduction_pct = 60` the resulting megaton
energy is the prior megaton energy times 0.40. -/
theorem apply_nuclear_deflection_energy_witness :
    (apply_nuclear_deflection (simulate_impact 50 20000 3000 45 none none) 60).energy_megatons
      = (simulate_impact 50 20000 3000 45 none none).energy_megatons * 0.40 := by
  have h := (apply_nuclear_deflection_energy 50 20000 3000 45 60 none none
    (by norm_num) (by norm_num)).2.2
  rw [h]
  norm_num

/-- C6: `apply_fragmentation` divides the stored velocity by
`sqrt(fragment_count)` and the stored diameter by
`fragment_count^(1/3)`; with `fragment_count = 8` the new diameter is
exactly the prior diameter divided by 2. -/
theorem apply_fragmentation_transform (prior : ImpactResult) (n : ℕ) :
    ((apply_fragmentation prior n).input.velocity_m_s
        = prior.input.velocity_m_s / Real.sqrt (n : ℝ) ∧
     (apply_fragmentation prior n).input.diameter_m
        = prior.input.diameter_m / (n : ℝ) ^ ((1 : ℝ) / 3)) ∧
    (apply_fragmentation prior 8).input.diameter_m
        = prior.input.diameter_m / 2 := by
  refine ⟨⟨?_, rfl⟩, ?_⟩
  · show prior.input.velocity_m_s * (1.0 / Real.sqrt (n : ℝ))
        = prior.input.velocity_m_s / Real.sqrt (n : ℝ)
    rw [show (1.0:ℝ) = 1 by norm_num, mul_one_div]
  · show prior.input.diameter_m / ((8:ℕ) : ℝ) ^ ((1 : ℝ) / 3)
        = prior.input.diameter_m / 2
    have h8 : (((8:ℕ)) : ℝ) ^ ((1 : ℝ) / 3) = 2 := by
      rw [show (((8:ℕ)) : ℝ) = (2:ℝ) ^ (3:ℕ) by norm_num,
        ← Real.rpow_natCast 2 3,
        ← Real.rpow_mul (by norm_num : (0:ℝ) ≤ 2),
        show (((3:ℕ)):ℝ) * (1 / 3) = 1 by norm_num,
        Real.rpow_one]
    rw [h8]

/-- C7: the crater diameter stored by `simulate_impact` is exactly the
spec's power law `max(1, C · E^0.25 · sin(angle)^(1/3) ·
(density_impactor/density_target)^(1/9))` with the fixed scalar
constant `C = 0.035` and the fixed target density `2500`, a
representative rock value distinct from the impactor's default density
`3000`. -/
theorem crater_diameter_refines_spec (d v ρ a : ℝ) (lat lon : Option ℝ) :
    (simulate_impact d v ρ a lat lon).crater_diameter_m
      = crater_spec 0.035 2500.0
          ((simulate_impact d v ρ a lat lon).energy_joules) ρ a ∧
    (0:ℝ) < 0.035 ∧ (2500.0:ℝ) ≠ 3000.0 :=
  ⟨rfl, by norm_num, by norm_num⟩

/-- C8: each mitigation operator reads only `prior.input` (two priors
with equal inputs give equal outputs, whatever their derived fields),
and the output's stored input keeps every non-perturbed field:
`lat`, `lon`, `density_kg_m3`, `impact_angle_deg` for all three
operators, and `diameter_m` additionally for the kinetic impactor and
nuclear deflection. -/
theorem mitigation_frame_properties (p q : ImpactResult) (r e : ℝ) (n : ℕ)
    (h : p.input = q.input) :
    (apply_kinetic_impactor p r = apply_kinetic_impactor q r ∧
     apply_nuclear_deflection p e = apply_nuclear_deflection q e ∧
     apply_fragmentation p n = apply_fragmentation q n) ∧
    ((apply_kinetic_impactor p r).input.lat = p.input.lat ∧
     (apply_kinetic_impactor p r).input.lon = p.input.lon ∧
     (apply_kinetic_impactor p r).input.density_kg_m3 = p.input.density_kg_m3 ∧
     (apply_kinetic_impactor p r).input.impact_angle_deg = p.input.impact_angle_deg ∧
     (apply_kinetic_impactor p r).input.diameter_m = p.input.diameter_m) ∧
    ((apply_nuclear_deflection p e).input.lat = p.input.lat ∧
     (apply_nuclear_deflection p e).input.lon = p.input.lon ∧
     (apply_nuclear_deflection p e).input.density_kg_m3 = p.input.density_kg_m3 ∧
     (apply_nuclear_deflection p e).input.impact_angle_deg = p.input.impact_angle_deg ∧
     (apply_nuclear_deflection p e).input.diameter_m = p.input.diameter_m) ∧
    ((apply_fragmentation p n).input.lat = p.input.lat ∧
     (apply_fragmentation p n).input.lon = p.input.lon ∧
     (apply_fragmentation p n).input.density_kg_m3 = p.input.density_kg_m3 ∧
     (apply_fragmentation p n).input.impact_angle_deg = p.input.impact_angle_deg) := by
  refine ⟨⟨?_, ?_, ?_⟩, ⟨rfl, rfl, rfl, rfl, rfl⟩, ⟨rfl, rfl, rfl, rfl, rfl⟩,
    ⟨rfl, rfl, rfl, rfl⟩⟩
  · unfold apply_kinetic_impactor
    rw [h]
  · unfold apply_nuclear_deflection
    rw [h]
  · unfold apply_fragmentation
    rw [h]

/-- Witness for C8: two priors that share an input but disagree on
every derived field yield the same kinetic-impactor output. -/
theorem mitigation_frame_properties_witness :
    apply_kinetic_impactor
        ⟨⟨1, 2, 3, 4, none, none⟩, 0, 0, 0, 0, ⟨0, 0, 0⟩, ⟨0, 0, 0⟩⟩ 10
      = apply_kinetic_impactor
        ⟨⟨1, 2, 3, 4, none, none⟩, 9, 9, 9, 9, ⟨9, 9, 9⟩, ⟨9, 9, 9⟩⟩ 10 :=
  (mitigation_frame_properties _ _ 10 50 3 rfl).1.1

/-- C9: `apply_kinetic_impactor` sets the new velocity to
`velocity * (1 - reduction_pct/100)`, and with `reduction_pct = 20` on
a prior of positive energy the resulting energy is strictly smaller. -/
theorem apply_kinetic_impactor_reduces_energy (d v ρ a r : ℝ) (lat lon : Option ℝ)
    (hd : 0 < d) (hρ : 0 < ρ) (hv : 0 < v) :
    (apply_kinetic_impactor (simulate_impact d v ρ a lat lon) r).input.velocity_m_s
      = v * (1 - r / 100) ∧
    (apply_kinetic_impactor (simulate_impact d v ρ a lat lon) 20).energy_joules
      < (simulate_impact d v ρ a lat lon).energy_joules := by
  constructor
  · show v * (1.0 - r / 100.0) = v * (1 - r / 100)
    norm_num
  · show kinetic_energy_joules (mass_from_diameter d ρ) (v * (1.0 - 20 / 100.0))
      < kinetic_energy_joules (mass_from_diameter d ρ) v
    have hm : 0 < mass_from_diameter d ρ := by
      show 0 < ρ * ((4.0 / 3.0) * Real.pi * (d / 2.0) ^ (3:ℕ))
      positivity
    unfold kinetic_energy_joules
    rw [show v * (1.0 - 20 / 100.0) = v * 0.8 by norm_num]
    nlinarith [mul_pos hv hv]

/-- Witness for C9: concrete scenario with a 20 percent kinetic
impactor. -/
theorem apply_kinetic_impactor_reduces_energy_witness :
    (apply_kinetic_impactor (simulate_impact 50 20000 3000 45 none none) 20).input.velocity_m_s
      = 20000 * (1 - 20 / 100) ∧
    (apply_kinetic_impactor (simulate_impact 50 20000 3000 45 none none) 20).energy_joules
      < (simulate_impact 50 20000 3000 45 none none).energy_joules :=
  apply_kinetic_impactor_reduces_energy 50 20000 3000 45 20 none none
    (by norm_num) (by norm_num) (by norm_num)

/-- Counterexample for C3: with `reduction_pct = 150`, far outside
(0,100), `apply_nuclear_deflection` raises nothing and clamps the
factor, producing a zero-velocity, zero-energy result. -/
theorem contract_violation_cex :
    (apply_nuclear_deflection (simulate_impact 50 20000 3000 45 none none) 150).input.velocity_m_s
      = 0 ∧
    (apply_nuclear_deflection (simulate_impact 50 20000 3000 45 none none) 150).energy_joules
      = 0 := by
  have hmax : max (0.0:ℝ) (1.0 - 150 / 100.0) = 0 := by
    rw [max_eq_left (show (1.0:ℝ) - 150 / 100.0 ≤ 0.0 by norm_num)]
    norm_num
  constructor
  · show (20000:ℝ) * Real.sqrt (max 0.0 (1.0 - 150 / 100.0)) = 0
    rw [hmax, Real.sqrt_zero, mul_zero]
  · show kinetic_energy_joules (mass_from_diameter 50 3000)
        ((20000:ℝ) * Real.sqrt (max 0.0 (1.0 - 150 / 100.0))) = 0
    rw [hmax, Real.sqrt_zero, mul_zero]
    unfold kinetic_energy_joules
    ring

/-- C3 (amended): the core performs no domain validation and raises no
error for any out-of-domain value; in particular
`apply_nuclear_deflection` clamps `1 - reduction_pct/100` at zero, so
every `reduction_pct ≥ 100` silently produces a zero-velocity,
zero-energy result. -/
theorem apply_nuclear_deflection_clamps (p : ImpactResult) (r : ℝ)
    (hr : 100 ≤ r) :
    (apply_nuclear_deflection p r).input.velocity_m_s = 0 ∧
    (apply_nuclear_deflection p r).energy_joules = 0 := by
  have hmax : max (0.0:ℝ) (1.0 - r / 100.0) = 0 := by
    rw [max_eq_left (show (1.0:ℝ) - r / 100.0 ≤ 0.0 by norm_num; linarith)]
    norm_num
  constructor
  · show p.input.velocity_m_s * Real.sqrt (max 0.0 (1.0 - r / 100.0)) = 0
    rw [hmax, Real.sqrt_zero, mul_zero]
  · show kinetic_energy_joules
        (mass_from_diameter p.input.diameter_m p.input.density_kg_m3)
        (p.input.velocity_m_s * Real.sqrt (max 0.0 (1.0 - r / 100.0))) = 0
    rw [hmax, Real.sqrt_zero, mul_zero]
    unfold kinetic_energy_joules
    ring

/-- Witness for the amended C3: reduction percentage 200 on a concrete
prior result. -/
theorem apply_nuclear_deflection_clamps_witness :
    (apply_nuclear_deflection (simulate_impact 1 1 1 1 none none) 200).input.velocity_m_s
      = 0 ∧
    (apply_nuclear_deflection (simulate_impact 1 1 1 1 none none) 200).energy_joules
      = 0 :=
  apply_nuclear_deflection_clamps (simulate_impact 1 1 1 1 none none) 200
    (by norm_num)

/-- At vertical incidence and energy at most one joule the crater
formula is clamped at its 1 m floor. -/
theorem crater_floor_at_small_energy (E : ℝ) (h0 : 0 ≤ E) (h1 : E ≤ 1) :
    estimate_crater_diameter E 3000 2500.0 90 = 1.0 := by
  have hsin : Real.sin (radians 90) = 1 := by
    rw [show radians 90 = Real.pi / 2 by unfold radians; ring]
    exact Real.sin_pi_div_two
  simp only [estimate_crater_diameter]
  rw [hsin, Real.one_rpow]
  rw [max_eq_left]
  have hE4 : E ^ (0.25:ℝ) ≤ 1 := Real.rpow_le_one h0 h1 (by norm_num)
  have hE4n : 0 ≤ E ^ (0.25:ℝ) := Real.rpow_nonneg h0 _
  have hd : ((3000:ℝ) / 2500.0) ^ ((1:ℝ)/9) ≤ 1.2 := by
    rw [show ((3000:ℝ) / 2500.0) = 1.2 by norm_num]
    calc (1.2:ℝ) ^ ((1:ℝ)/9) ≤ (1.2:ℝ) ^ (1:ℝ) :=
          Real.rpow_le_rpow_of_exponent_le (by norm_num) (by norm_num)
      _ = 1.2 := Real.rpow_one _
  have hdn : 0 ≤ ((3000:ℝ) / 2500.0) ^ ((1:ℝ)/9) :=
    Real.rpow_nonneg (by norm_num) _
  nlinarith

/-- At positive energy of at most one joule all three damage radii are
clamped at their floors. -/
theorem damage_radii_floor_at_small_energy (E : ℝ) (h0 : 0 < E) (h1 : E ≤ 1) :
    estimate_damage_radii E = ⟨5.0, 10.0, 20.0⟩ := by
  have hmtpos : 0 < energy_megatons E := by
    unfold energy_megatons JOULES_PER_MEGATON_TNT
    positivity
  have hmtle : energy_megatons E ≤ ((1:ℝ)/200) ^ (3:ℕ) := by
    unfold energy_megatons JOULES_PER_MEGATON_TNT
    rw [div_le_iff₀ (by norm_num : (0:ℝ) < 4.184e15)]
    nlinarith
  have hx : energy_megatons E ^ ((1:ℝ)/3) ≤ 1/200 := by
    calc energy_megatons E ^ ((1:ℝ)/3)
        ≤ (((1:ℝ)/200) ^ (3:ℕ)) ^ ((1:ℝ)/3) :=
          Real.rpow_le_rpow hmtpos.le hmtle (by norm_num)
      _ = 1/200 := by
          rw [← Real.rpow_natCast ((1:ℝ)/200) 3,
            ← Real.rpow_mul (by norm_num : (0:ℝ) ≤ 1/200),
            show (((3:ℕ)):ℝ) * (1/3) = 1 by norm_num, Real.rpow_one]
  have hxn : 0 ≤ energy_megatons E ^ ((1:ℝ)/3) :=
    Real.rpow_nonneg hmtpos.le _
  simp only [estimate_damage_radii]
  rw [if_neg (not_le.mpr hmtpos)]
  congr 1
  · rw [max_eq_left]
    linarith
  · rw [max_eq_left]
    linarith
  · rw [max_eq_left]
    linarith

/-- Energy bounds for the tiny 1 mm scenario used as counterexample. -/
theorem small_scenario_energy_bounds (v : ℝ) (hv : 0 < v) (hv2 : v ≤ 2) :
    0 < kinetic_energy_joules (mass_from_diameter 0.001 3000) v ∧
    kinetic_energy_joules (mass_from_diameter 0.001 3000) v ≤ 1 := by
  have h4 := Real.pi_le_four
  have hπ := Real.pi_pos
  show 0 < 0.5 * (3000 * ((4.0/3.0) * Real.pi * ((0.001:ℝ)/2.0) ^ (3:ℕ))) * v ^ (2:ℕ) ∧
      0.5 * (3000 * ((4.0/3.0) * Real.pi * ((0.001:ℝ)/2.0) ^ (3:ℕ))) * v ^ (2:ℕ) ≤ 1
  constructor
  · positivity
  · nlinarith [mul_pos hv hv, mul_le_mul hv2 hv2 hv.le (by norm_num : (0:ℝ) ≤ 2)]

/-- Counterexample for C2: for a 1 mm impactor at 90 degrees, raising
the velocity from 1 to 2 m/s leaves the crater diameter and all three
damage radii unchanged (clamped at the floors), so they do not strictly
increase with velocity. -/
theorem velocity_strict_monotonicity_cex :
    (simulate_impact 0.001 1 3000 90 none none).input.velocity_m_s
      < (simulate_impact 0.001 2 3000 90 none none).input.velocity_m_s ∧
    (simulate_impact 0.001 1 3000 90 none none).crater_diameter_m
      = (simulate_impact 0.001 2 3000 90 none none).crater_diameter_m ∧
    (simulate_impact 0.001 1 3000 90 none none).damage_radii_m
      = (simulate_impact 0.001 2 3000 90 none none).damage_radii_m := by
  have h1 := small_scenario_energy_bounds 1 (by norm_num) (by norm_num)
  have h2 := small_scenario_energy_bounds 2 (by norm_num) (by norm_num)
  refine ⟨show (1:ℝ) < 2 by norm_num, ?_, ?_⟩
  · show estimate_crater_diameter
        (kinetic_energy_joules (mass_from_diameter 0.001 3000) 1) 3000 2500.0 90
      = estimate_crater_diameter
        (kinetic_energy_joules (mass_from_diameter 0.001 3000) 2) 3000 2500.0 90
    rw [crater_floor_at_small_energy _ h1.1.le h1.2,
      crater_floor_at_small_energy _ h2.1.le h2.2]
  · show estimate_damage_radii (kinetic_energy_joules (mass_from_diameter 0.001 3000) 1)
      = estimate_damage_radii (kinetic_energy_joules (mass_from_diameter 0.001 3000) 2)
    rw [damage_radii_floor_at_small_energy _ h1.1 h1.2,
      damage_radii_floor_at_small_energy _ h2.1 h2.2]

/-- C2 (amended): with diameter, density and angle fixed in the valid
domain, a strictly larger velocity strictly increases `energy_joules`
and `energy_megatons`, while `crater_diameter_m` and the three damage
radii increase monotonically but not necessarily strictly: the floors
at 1 m and 5/10/20 m can clamp both results to equal values. -/
theorem simulate_impact_velocity_monotonic (d ρ a v1 v2 : ℝ) (lat lon : Option ℝ)
    (hd : 0 < d) (hρ : 0 < ρ) (ha0 : 0 < a) (ha90 : a ≤ 90) (hv1 : 0 < v1)
    (hv : v1 < v2) :
    (simulate_impact d v1 ρ a lat lon).energy_joules
      < (simulate_impact d v2 ρ a lat lon).energy_joules ∧
    (simulate_impact d v1 ρ a lat lon).energy_megatons
      < (simulate_impact d v2 ρ a lat lon).energy_megatons ∧
    (simulate_impact d v1 ρ a lat lon).crater_diameter_m
      ≤ (simulate_impact d v2 ρ a lat lon).crater_diameter_m ∧
    (simulate_impact d v1 ρ a lat lon).damage_radii_m.lethal_m
      ≤ (simulate_impact d v2 ρ a lat lon).damage_radii_m.lethal_m ∧
    (simulate_impact d v1 ρ a lat lon).damage_radii_m.severe_m
      ≤ (simulate_impact d v2 ρ a lat lon).damage_radii_m.severe_m ∧
    (simulate_impact d v1 ρ a lat lon).damage_radii_m.moderate_m
      ≤ (simulate_impact d v2 ρ a lat lon).damage_radii_m.moderate_m := by
  have hm : 0 < mass_from_diameter d ρ := by
    show 0 < ρ * ((4.0 / 3.0) * Real.pi * (d / 2.0) ^ (3:ℕ))
    positivity
  have hE : kinetic_energy_joules (mass_from_diameter d ρ) v1
      < kinetic_energy_joules (mass_from_diameter d ρ) v2 := by
    unfold kinetic_energy_joules
    nlinarith [mul_pos hm (mul_pos (add_pos hv1 (hv1.trans hv)) (sub_pos.mpr hv))]
  have hE1 : 0 < kinetic_energy_joules (mass_from_diameter d ρ) v1 := by
    unfold kinetic_energy_joules
    nlinarith [mul_pos hm (mul_pos hv1 hv1)]
  have hE2 : 0 < kinetic_energy_joules (mass_from_diameter d ρ) v2 :=
    hE1.trans hE
  have hmt : energy_megatons (kinetic_energy_joules (mass_from_diameter d ρ) v1)
      < energy_megatons (kinetic_energy_joules (mass_from_diameter d ρ) v2) := by
    unfold energy_megatons JOULES_PER_MEGATON_TNT
    linarith
  have hmt1 : 0 < energy_megatons (kinetic_energy_joules (mass_from_diameter d ρ) v1) := by
    unfold energy_megatons
    exact div_pos hE1 (by unfold JOULES_PER_MEGATON_TNT; norm_num)
  have hmt2 : 0 < energy_megatons (kinetic_energy_joules (mass_from_diameter d ρ) v2) :=
    hmt1.trans hmt
  have hsin : 0 < Real.sin (radians a) := by
    apply Real.sin_pos_of_pos_of_lt_pi
    · unfold radians
      positivity
    · unfold radians
      nlinarith [mul_pos Real.pi_pos (show (0:ℝ) < 180 - a by linarith)]
  have hcr : estimate_crater_diameter
        (kinetic_energy_joules (mass_from_diameter d ρ) v1) ρ 2500.0 a
      ≤ estimate_crater_diameter
        (kinetic_energy_joules (mass_from_diameter d ρ) v2) ρ 2500.0 a := by
    simp only [estimate_crater_diameter]
    apply max_le_max le_rfl
    have h14 : (kinetic_energy_joules (mass_from_diameter d ρ) v1) ^ (0.25:ℝ)
        ≤ (kinetic_energy_joules (mass_from_diameter d ρ) v2) ^ (0.25:ℝ) :=
      Real.rpow_le_rpow hE1.le hE.le (by norm_num)
    have hsf : 0 ≤ Real.sin (radians a) ^ ((1:ℝ)/3) :=
      Real.rpow_nonneg hsin.le _
    have hdf : 0 ≤ (ρ / 2500.0) ^ ((1:ℝ)/9) :=
      Real.rpow_nonneg (by positivity) _
    exact mul_le_mul_of_nonneg_right
      (mul_le_mul_of_nonneg_right (by nlinarith) hsf) hdf
  have hx : (energy_megatons (kinetic_energy_joules (mass_from_diameter d ρ) v1)) ^ ((1:ℝ)/3)
      ≤ (energy_megatons (kinetic_energy_joules (mass_from_diameter d ρ) v2)) ^ ((1:ℝ)/3) :=
    Real.rpow_le_rpow hmt1.le hmt.le (by norm_num)
  have hrad :
      (estimate_damage_radii (kinetic_energy_joules (mass_from_diameter d ρ) v1)).lethal_m
        ≤ (estimate_damage_radii (kinetic_energy_joules (mass_from_diameter d ρ) v2)).lethal_m ∧
      (estimate_damage_radii (kinetic_energy_joules (mass_from_diameter d ρ) v1)).severe_m
        ≤ (estimate_damage_radii (kinetic_energy_joules (mass_from_diameter d ρ) v2)).severe_m ∧
      (estimate_damage_radii (kinetic_energy_joules (mass_from_diameter d ρ) v1)).moderate_m
        ≤ (estimate_damage_radii (kinetic_energy_joules (mass_from_diameter d ρ) v2)).moderate_m := by
    simp only [estimate_damage_radii]
    rw [if_neg (not_le.mpr hmt1), if_neg (not_le.mpr hmt2)]
    exact ⟨max_le_max le_rfl (by nlinarith),
      max_le_max le_rfl (by nlinarith),
      max_le_max le_rfl (by nlinarith)⟩
  exact ⟨hE, hmt, hcr, hrad.1, hrad.2.1, hrad.2.2⟩

/-- Witness for the amended C2: concrete valid scenario, velocity 1
versus 2 m/s. -/
theorem simulate_impact_velocity_monotonic_witness :
    (simulate_impact 1 1 3000 45 none none).energy_joules
      < (simulate_impact 1 2 3000 45 none none).energy_joules ∧
    (simulate_impact 1 1 3000 45 none none).energy_megatons
      < (simulate_impact 1 2 3000 45 none none).energy_megatons ∧
    (simulate_impact 1 1 3000 45 none none).crater_diameter_m
      ≤ (simulate_impact 1 2 3000 45 none none).crater_diameter_m ∧
    (simulate_impact 1 1 3000 45 none none).damage_radii_m.lethal_m
      ≤ (simulate_impact 1 2 3000 45 none none).damage_radii_m.lethal_m ∧
    (simulate_impact 1 1 3000 45 none none).damage_radii_m.severe_m
      ≤ (simulate_impact 1 2 3000 45 none none).damage_radii_m.severe_m ∧
    (simulate_impact 1 1 3000 45 none none).damage_radii_m.moderate_m
      ≤ (simulate_impact 1 2 3000 45 none none).damage_radii_m.moderate_m :=
  simulate_impact_velocity_monotonic 1 3000 45 1 2 none none (by norm_num)
    (by norm_num) (by norm_num) (by norm_num) (by norm_num) (by norm_num)
